import Mathlib

/-!
Verification of the kickboxing-profile repository.

The file shallowly embeds the two programs of the repository:

* src/js/main.js — the single-page site: modal controllers, the sidebar
  navigation, the zoomable timeline widget, the global Escape-key router
  and the language switcher.  The DOM classes the code toggles are
  modelled as boolean fields of an explicit state record, and each event
  handler becomes a state-transition function translated line by line
  from the source.

* src/images/make_thumbnails.ps1 — the thumbnail batch tool.  Its
  dimension arithmetic is embedded over the rationals (PowerShell
  performs the divisions in double precision; the claims under scrutiny
  involve only exactly-representable values), and the per-file loop with
  its skip check and try/catch becomes a fold over a list of abstract
  input files.
-/

/-! ## State of the page (main.js)

One record collects every piece of DOM state the embedded handlers read
or write: the active classes of the two modals, the sidebar triple, the
body scroll lock, the timeline container classes (zoomed,
zoom-section-1/2/3, mobile-mode), the Timeline module field
currentSection, the disabled flags of the two nav buttons, and
window.innerWidth.  The initial page markup has none of these classes
set and Timeline.currentSection starts at 1.
-/

structure AppState where
  width : Nat
  achievementActive : Bool
  partnerActive : Bool
  sidebarActive : Bool
  menuToggleActive : Bool
  overlayActive : Bool
  bodyOverflowHidden : Bool
  tlZoomed : Bool
  tlZoom1 : Bool
  tlZoom2 : Bool
  tlZoom3 : Bool
  tlMobileMode : Bool
  currentSection : Nat
  navPrevDisabled : Bool
  navNextDisabled : Bool
deriving DecidableEq, Repr

/-- Timeline.totalSections (main.js line 181). -/
def totalSections : Nat := 3

/-- Timeline.isMobile (main.js lines 267-269): window.innerWidth <= 768. -/
def isMobile (s : AppState) : Bool := s.width ≤ 768

/-- Timeline.updateNavButtons (main.js lines 284-289): navPrev.disabled =
currentSection <= 1, navNext.disabled = currentSection >= totalSections. -/
def updateNavButtons (s : AppState) : AppState :=
  { s with navPrevDisabled := s.currentSection ≤ 1,
           navNextDisabled := totalSections ≤ s.currentSection }

/-- Timeline.zoomToSection (main.js lines 271-276): set currentSection,
remove the three zoom-section classes, add zoomed and zoom-section-n,
then updateNavButtons. -/
def zoomToSection (s : AppState) (n : Nat) : AppState :=
  updateNavButtons
    { s with currentSection := n,
             tlZoomed := true,
             tlZoom1 := n == 1,
             tlZoom2 := n == 2,
             tlZoom3 := n == 3 }

/-- Timeline.zoomOut (main.js lines 278-282): early return on mobile;
otherwise remove zoomed and every zoom-section class, then
updateNavButtons. -/
def zoomOut (s : AppState) : AppState :=
  if isMobile s then s
  else
    updateNavButtons
      { s with tlZoomed := false, tlZoom1 := false, tlZoom2 := false, tlZoom3 := false }

/-- Timeline.isZoomed (main.js lines 291-293). -/
def isZoomed (s : AppState) : Bool := s.tlZoomed

/-- Modal.close applied to the achievement modal (main.js lines 16-21):
remove the active class and restore body scroll. -/
def closeAchievementModal (s : AppState) : AppState :=
  { s with achievementActive := false, bodyOverflowHidden := false }

/-- Modal.close applied to the partner modal (main.js lines 16-21). -/
def closePartnerModal (s : AppState) : AppState :=
  { s with partnerActive := false, bodyOverflowHidden := false }

/-- Modal.open applied to the achievement modal (main.js lines 27-32). -/
def openAchievementModal (s : AppState) : AppState :=
  { s with achievementActive := true, bodyOverflowHidden := true }

/-- Modal.open applied to the partner modal (main.js lines 27-32). -/
def openPartnerModal (s : AppState) : AppState :=
  { s with partnerActive := true, bodyOverflowHidden := true }

/-- Navigation.openSidebar (main.js lines 112-117). -/
def openSidebar (s : AppState) : AppState :=
  { s with menuToggleActive := true, sidebarActive := true,
           overlayActive := true, bodyOverflowHidden := true }

/-- Navigation.closeSidebar (main.js lines 119-124). -/
def closeSidebar (s : AppState) : AppState :=
  { s with menuToggleActive := false, sidebarActive := false,
           overlayActive := false, bodyOverflowHidden := false }

/-- Navigation.isSidebarActive (main.js lines 145-147). -/
def isSidebarActive (s : AppState) : Bool := s.sidebarActive

/-- KeyboardHandler.init Escape branch (main.js lines 404-421): check the
achievement modal, then the partner modal, then the sidebar, then the
timeline zoom, handling only the first active one. -/
def escapeKey (s : AppState) : AppState :=
  if s.achievementActive then closeAchievementModal s
  else if s.partnerActive then closePartnerModal s
  else if isSidebarActive s then closeSidebar s
  else if isZoomed s then zoomOut s
  else s

/-- Timeline navPrev click handler (main.js lines 231-235). -/
def navPrevClick (s : AppState) : AppState :=
  if 1 < s.currentSection then zoomToSection s (s.currentSection - 1) else s

/-- Timeline navNext click handler (main.js lines 237-241). -/
def navNextClick (s : AppState) : AppState :=
  if s.currentSection < totalSections then zoomToSection s (s.currentSection + 1) else s

inductive ArrowKey where
  | left
  | right
deriving DecidableEq, Repr

/-- Timeline document keydown handler (main.js lines 254-264): ignore the
key unless on mobile or zoomed; ArrowLeft moves one section down when
above 1, ArrowRight one section up when below totalSections. -/
def timelineKeydown (s : AppState) (k : ArrowKey) : AppState :=
  if !isMobile s && !s.tlZoomed then s
  else
    match k with
    | ArrowKey.left => if 1 < s.currentSection then zoomToSection s (s.currentSection - 1) else s
    | ArrowKey.right =>
        if s.currentSection < totalSections then zoomToSection s (s.currentSection + 1) else s

/-- Timeline resize handler (main.js lines 202-217): with the new window
width, on mobile zoom to section 1 unless already zoomed and add
mobile-mode; on desktop, if in mobile-mode, zoomOut and remove
mobile-mode. -/
def resizeEvent (s : AppState) (w : Nat) : AppState :=
  let s1 : AppState := { s with width := w }
  if isMobile s1 then
    let s2 : AppState := if !s1.tlZoomed then zoomToSection s1 1 else s1
    { s2 with tlMobileMode := true }
  else
    if s1.tlMobileMode then
      let s2 : AppState := zoomOut s1
      { s2 with tlMobileMode := false }
    else s1

/-- Timeline section hot-zone click handler (main.js lines 220-226):
ignored on mobile, otherwise zoom to the data-section of the clicked
area (the page's three areas carry sections 1, 2 and 3). -/
def sectionAreaClick (s : AppState) (n : Nat) : AppState :=
  if isMobile s then s else zoomToSection s n

/-- Timeline zoom-out button click handler (main.js line 229). -/
def zoomOutClick (s : AppState) : AppState := zoomOut s

/-- Timeline svg background click handler (main.js lines 244-251), for a
click outside every section hot-zone: ignored on mobile, zooms out when
zoomed. -/
def svgBackgroundClick (s : AppState) : AppState :=
  if isMobile s then s
  else if s.tlZoomed then zoomOut s
  else s

/-- Navigation hamburger click handler (main.js lines 95-101). -/
def menuToggleClick (s : AppState) : AppState :=
  if s.sidebarActive then closeSidebar s else openSidebar s

/-- Input events of the embedded page, one per registered handler that
touches the modelled state. -/
inductive Ev where
  | escape
  | arrow (k : ArrowKey)
  | navPrev
  | navNext
  | sectionClick (n : Nat)
  | zoomOutBtn
  | svgClick
  | resize (w : Nat)
  | menuToggle
  | overlayClick
  | sidebarLink
  | achievementCardClick
  | partnerCardClick
deriving DecidableEq, Repr

/-- Dispatch of one event to its handler. -/
def step (s : AppState) : Ev → AppState
  | Ev.escape => escapeKey s
  | Ev.arrow k => timelineKeydown s k
  | Ev.navPrev => navPrevClick s
  | Ev.navNext => navNextClick s
  | Ev.sectionClick n => sectionAreaClick s n
  | Ev.zoomOutBtn => zoomOutClick s
  | Ev.svgClick => svgBackgroundClick s
  | Ev.resize w => resizeEvent s w
  | Ev.menuToggle => menuToggleClick s
  | Ev.overlayClick => closeSidebar s
  | Ev.sidebarLink => closeSidebar s
  | Ev.achievementCardClick => openAchievementModal s
  | Ev.partnerCardClick => openPartnerModal s

/-- The page as served: every modelled class absent, currentSection 1. -/
def initialState (w : Nat) : AppState :=
  { width := w
    achievementActive := false
    partnerActive := false
    sidebarActive := false
    menuToggleActive := false
    overlayActive := false
    bodyOverflowHidden := false
    tlZoomed := false
    tlZoom1 := false
    tlZoom2 := false
    tlZoom3 := false
    tlMobileMode := false
    currentSection := 1
    navPrevDisabled := false
    navNextDisabled := false }

/-- Timeline.setupInteractions startup block (main.js lines 196-200): on
mobile, zoom to section 1 and add mobile-mode. -/
def timelineInit (s : AppState) : AppState :=
  if isMobile s then { zoomToSection s 1 with tlMobileMode := true } else s

/-- State after page initialization at window width w. -/
def initApp (w : Nat) : AppState := timelineInit (initialState w)

/-- State after page initialization followed by a sequence of events. -/
def run (w : Nat) (evs : List Ev) : AppState := evs.foldl step (initApp w)

/-- Events handled by the timeline prev/next controls or arrow keys. -/
def isNavEv : Ev → Bool
  | Ev.navPrev => true
  | Ev.navNext => true
  | Ev.arrow _ => true
  | _ => false

/-! ## Language switcher (main.js lines 426-627)

A translatable element is modelled by its data-i18n key and its
textContent.  The German table is transcribed from the source; the
original-text store built at startup and the element update loop of
switchLanguage follow the code, including the JavaScript truthiness
tests on the two lookups (an absent key or an empty string is falsy).
-/

structure TElem where
  key : String
  text : String
deriving DecidableEq, Repr

/-- LanguageSwitcher.translations.de (main.js lines 430-574). -/
def translationsDe : List (String × String) :=
  [ ("nav.about", "Über mich"),
    ("nav.achievements", "Erfolge"),
    ("nav.journey", "Mein Weg"),
    ("nav.contacts", "Kontakt"),
    ("nav.partner", "Partner werden"),
    ("hero.tagline", "Junge, aufstrebende Kickboxerin aus der Schweiz mit internationalen Erfolgen – ein Symbol für Talent, Disziplin und Ambition auf internationaler Ebene."),
    ("hero.badge.european", "Europameisterin"),
    ("hero.badge.swiss", "2x Schweizer Meisterin"),
    ("hero.badge.national", "Nationalmannschaft"),
    ("hero.cta", "Sponsor werden"),
    ("about.title", "Über Eva Tschanz-Eichar"),
    ("about.text", "Beständigkeit, persönliches Wachstum, Lebensfreude sowie Respekt und Freundlichkeit gegenüber anderen stehen für mich an erster Stelle."),
    ("about.age", "Alter"),
    ("about.age.value", "17 Jahre"),
    ("about.nationality", "Nationalität"),
    ("about.nationality.value", "Schweiz & Kanada"),
    ("about.location", "Standort"),
    ("about.location.value", "Bern, Schweiz"),
    ("about.discipline", "Disziplin"),
    ("about.gym", "Gym"),
    ("about.competing", "Teilnahme an Wettkämpfen seit"),
    ("about.cta", "→ Kontakt aufnehmen"),
    ("achievements.title", "Erfolge"),
    ("achievements.euro.category", "Europameisterschaft"),
    ("achievements.euro.result", "3 Kämpfe, 3 Siege --> Goldmedaille"),
    ("achievements.euro.preview", "9 Teilnehmerinnen in der Kategorie. Jeden Kampf dominiert und den Europatitel nach intensiver Vorbereitung geholt."),
    ("achievements.cups.category", "Internationale Wettkämpfe"),
    ("achievements.cups.result", "Mehrere Goldmedaillen & Wachstum"),
    ("achievements.cups.preview", "Sarajevo: Erste internationale Goldmedaille | Budapest: Dominanter Sieg | Antalya: TKO-Sieg, Kampf gegen Weltmeisterin | Jesolo: Lernerfahrung - Motivation zur Verbesserung"),
    ("achievements.swiss.category", "Schweizer Meisterschaften"),
    ("achievements.swiss.result", "Nationale Meisterin (WAKO & SCOS)"),
    ("achievements.swiss.location", "Schweiz"),
    ("achievements.swiss.preview", "WAKO: Dominanter Sieg auf nationaler Ebene | SCOS: Nach einem Jahr Qualifikationen fast alle gewonnen und einen klaren Sieg im Finale errungen"),
    ("achievements.expand", "Klicken für mehr →"),
    ("achievements.euro.title", "Europameisterschaft 2025"),
    ("achievements.euro.location", "Jesolo, Italien"),
    ("achievements.euro.description", "9 Teilnehmerinnen in der Kategorie. Jeden Kampf dominiert und den Titel geholt."),
    ("achievements.euro.quote", "Ich habe den ganzen Sommer für diesen Wettkampf trainiert. Ich bin nicht in die Ferien gefahren, sondern zu Hause geblieben und habe mehrmals am Tag trainiert. Ich habe mich stark auf meine Ernährung und Gesundheit konzentriert, alles gegeben und am Ende gewonnen."),
    ("achievements.cups.title", "Internationale Wettkämpfe 2025"),
    ("achievements.cups.location", "Sarajevo, Ungarn, Türkei, Italien"),
    ("achievements.cups.description", "European Cup Grand Prix (Sarajevo): Zwei harte Kämpfe im Turniers, gewann meine erste Goldmedaille in einem internationalen Wettkampf.\n\nWeltcup Ungarn (Budapest): Dominanter Sieg gegen eine erfahrene Gegnerin, technische Überlegenheit und Kampfintelligenz gezeigt.\n\nWeltcup Türkei (Antalya): Ersten Kampf durch TKO gewonnen. Zweiten Kampf gegen dieselbe Gegnerin aus Italien verloren - eine Weltmeisterin und Europameisterin, die selten verliert. Diese Niederlage hat noch mehr Feuer entfacht, härter zu arbeiten. Ziel: 2026 gegen sie gewinnen.\n\nInternational Open (Jesolo): Meinen ersten internationalen Kampf nach Punkten verloren. Eine harte Lernerfahrung, die zur Motivation für Verbesserungen wurde."),
    ("achievements.swiss.title", "Schweizer Meisterschaften 2024"),
    ("achievements.swiss.description", "WAKO Meisterschaften: Die Konkurrenz bei den Schweizer WAKO Meisterschaften dominiert, gute Technik und Kondition gezeigt.\n\nSCOS Meisterschaften: Nach einem ganzen Jahr Qualifikationen, die meisten davon gewonnen, qualifizierte ich mich fürs Finale. Erziehlte einen klaren Sieg in den Meisterschaftsfinals."),
    ("timeline.title", "Der Weg nach vorne"),
    ("timeline.section1", "Die bisherige Reise"),
    ("timeline.section1.sub", "2021 - 2025"),
    ("timeline.section2", "2026 Ziele"),
    ("timeline.section2.sub", "Nächstes Kapitel"),
    ("timeline.section3", "Langfristige Vision"),
    ("timeline.section3.sub", "Der Traum"),
    ("timeline.hint", "Klicke auf einen Abschnitt zum Vergrössern"),
    ("budget.title", "Investitionsübersicht"),
    ("budget.subtitle", "Ein transparenter Einblick in das, was es braucht, um auf höchstem Niveau im Kickboxen zu konkurrieren"),
    ("budget.training", "Training & Coaching"),
    ("budget.training.desc", "Mitgliedschaften, professionelles Athletiktraining"),
    ("budget.competition", "Wettkampf & Reisen"),
    ("budget.competition.desc", "Startgebühren, Flüge, Unterkunft für internationale Events"),
    ("budget.equipment", "Ausrüstung"),
    ("budget.equipment.desc", "Handschuhe, Schutzausrüstung, Trainingskleidung, Wettkampfkleidung"),
    ("budget.nutrition", "Ernährung"),
    ("budget.nutrition.desc", "Spezialisierter Ernährungsplan, Nahrungsergänzungsmittel"),
    ("budget.camps", "Trainingscamps"),
    ("budget.camps.desc", "Intensive Vorbereitungscamps mit Spitzentrainern im Ausland"),
    ("budget.total", "Jährliche Investition"),
    ("budget.summary.title", "Wohin deine Unterstützung geht"),
    ("budget.summary.text1", "Jeder Franken wird direkt in Training, Wettkampf und Entwicklung investiert. Als Amateursportlerin balance ich meine sportliche Karriere mit Studium und Arbeit und widme jede verfügbare Ressource dem Ziel, die Spitze meines Sports zu erreichen."),
    ("budget.summary.text2", "Dein Sponsoring hilft, diese wesentlichen Kosten zu decken, damit ich mich auf das Wichtigste konzentrieren kann: die beste Kickboxerin zu werden, die ich sein kann, und die Schweiz auf der Weltbühne zu vertreten."),
    ("budget.cta", "→ Sponsoring besprechen"),
    ("education.title", "Ausbildung & Ziele"),
    ("education.text1", "Ausserhalb des Rings besuche ich das Sportgymnasium Neufeld in Bern mit dem Ziel, professionelle Kickboxerin zu werden, mit dem langfristigen Ziel, an den Olympischen Spielen teilzunehmen und Kämpferin in der Weltklasse-Kampforganisation ONE Championship zu werden."),
    ("education.text2", "Neben meinen sportlichen Ambitionen interessiere ich mich für ein Studium in Informatik oder Ingenieurwesen."),
    ("education.text3", "Ich habe den Schweizer J+S Leiterkurs abgeschlossen und trainiere Kinderkurse in meinem Gym."),
    ("education.text4", "Als Vorbild für junge Mädchen im Kampfsport möchte ich sie inspirieren, ihren eigenen Weg zu gehen und durch Disziplin und harte Arbeit Selbstvertrauen zu gewinnen."),
    ("kickboxing.title", "K1 Kickboxen"),
    ("kickboxing.text1", "K1 Kickboxen ist eine der intensivsten Schlagkampfsportarten der Welt, die Techniken aus Muay Thai, Karate und westlichem Boxen zu einem schnellen, explosiven Kampfsport kombiniert."),
    ("kickboxing.text2", "Kämpfer nutzen Schläge, Tritte und Kniestösse, um Punkte zu sammeln oder Knockouts zu erzielen. Anders als bei Muay Thai sind Ellbogen nicht erlaubt und Clinchen ist begrenzt, was den Fokus auf dynamische Schlagaustausche legt."),
    ("kickboxing.text3", "Kämpfe bestehen aus drei 3-Minuten-Runden für Profis oder drei 2-Minuten-Runden für Amateure. Der Sieg kann durch Knockout, technischen Knockout (3 Niederschläge in einer Runde) oder Punktrichterentscheidung basierend auf effektiven Treffern, Schaden und Aggressivität erreicht werden."),
    ("kickboxing.text4", "K1 ist zu einem globalen Phänomen gewachsen mit grossen internationalen Wettkämpfen wie Europameisterschaften, Weltcups und Weltmeisterschaften, organisiert von Verbänden wie WAKO (World Association of Kickboxing Organizations)."),
    ("values.title", "Wofür ich stehe"),
    ("values.text", "Diese Grundwerte leiten alles, was ich tue - von frühmorgendlichen Trainingseinheiten bis hin zu Wettkämpfen auf internationaler Bühne. Sie prägen, wer ich als Sportlerin und als Mensch bin."),
    ("values.consistency", "Beständigkeit"),
    ("values.consistency.desc", "Jeden Tag erscheinen, die Arbeit investieren und dem Prozess vertrauen"),
    ("values.growth", "Wachstum"),
    ("values.growth.desc", "Die beste Version meiner selbst werden, Tag für Tag"),
    ("values.respect", "Respekt"),
    ("values.respect.desc", "Jeden mit Freundlichkeit behandeln, im Ring und ausserhalb"),
    ("values.inspiration", "Inspiration"),
    ("values.inspiration.desc", "Ein Vorbild für junge Sportler sein, besonders für Mädchen im Kampfsport"),
    ("sponsorship.title", "Partner einer Meisterin werden"),
    ("sponsorship.intro", "Eine Investition in Eva verbindet deine Marke mit Beständigkeit, Wachstum, Respekt und Inspiration — die Grundlage wahrer Exzellenz."),
    ("sponsorship.content", "Authentischer Content"),
    ("sponsorship.content.desc", "Wirkungsvoller Content aus Training, Wettkampf und dem täglichen Kampfleben"),
    ("sponsorship.visibility", "Markensichtbarkeit"),
    ("sponsorship.visibility.desc", "Starke Präsenz bei nationalen und internationalen K1- und Kickbox-Events"),
    ("sponsorship.representation", "Konstante Repräsentation"),
    ("sponsorship.representation.desc", "Vertretung deiner Marke in Training, Medien und auf sozialen Plattformen"),
    ("sponsorship.ambassador", "Inspirierende Botschafterin"),
    ("sponsorship.ambassador.desc", "Eine motivierte junge Athletin, die andere durch Kampfsport inspiriert"),
    ("sponsorship.cta", "→ Sponsor werden"),
    ("partners.title", "Aktuelle Partner"),
    ("partners.edubily.desc", "Erstellung von ansprechendem Content zur Unterstützung ihrer Marke durch authentische, hochwertige Inhalte aus meiner sportlichen Reise."),
    ("partners.edubily.role", "Content Creator"),
    ("partners.mcdonalds.desc", "Stolze Partnerschaft durch Sporthilfe, sie unterstützen meine sportliche Reise und ich halte während der Saison engen Kontakt."),
    ("partners.mcdonalds.role", "Athletenpartnerschaft via Sporthilfe"),
    ("contact.title", "Lass uns verbinden"),
    ("contact.text", "Interesse an Sponsoring-Möglichkeiten, Medienanfragen oder Zusammenarbeit? Melde dich und lass uns besprechen, wie wir zusammenarbeiten können."),
    ("contact.email", "E-Mail"),
    ("footer.subtitle", "Schweizer Kickbox-Meisterin"),
    ("footer.timeline", "Zeitachse"),
    ("footer.education", "Ausbildung"),
    ("footer.values", "Werte"),
    ("footer.sponsorship", "Sponsoring"),
    ("footer.partners", "Partner"),
    ("footer.contact", "Kontakt") ]

/-- Lookup in the German table: translations.de of a key. -/
def lookupDe (k : String) : Option String :=
  (translationsDe.find? (fun p => p.1 == k)).map (fun p => p.2)

/-- JavaScript truthiness of a property lookup on a string-valued object:
absent keys give undefined (falsy) and the empty string is falsy. -/
def truthyStr : Option String → Bool
  | none => false
  | some t => !(t == "")

/-- One assignment of the storeOriginalTexts loop: write the element's
text under its key. -/
def storeUpd (m : String → Option String) (el : TElem) : String → Option String :=
  fun k => if k == el.key then some el.text else m k

/-- LanguageSwitcher.storeOriginalTexts (main.js lines 600-605):
originalTexts becomes the map built by writing each element's text under
its key in document order, later writes overwriting earlier ones. -/
def storeOriginalTexts (els : List TElem) : String → Option String :=
  els.foldl storeUpd (fun _ => none)

/-- The per-element body of the switchLanguage update loop (main.js lines
615-622): on de, replace the text when the German lookup is truthy; on
en, replace it when the stored original is truthy; otherwise leave it. -/
def applyLang (orig : String → Option String) (lang : String) (el : TElem) : TElem :=
  if lang == "de" && truthyStr (lookupDe el.key) then
    { el with text := (lookupDe el.key).getD el.text }
  else if lang == "en" && truthyStr (orig el.key) then
    { el with text := (orig el.key).getD el.text }
  else el

/-- LanguageSwitcher state: currentLang, the two label styles, and the
translatable elements (main.js lines 607-626). -/
structure LangState where
  currentLang : String
  langEnLabelActive : Bool
  langDeLabelActive : Bool
  elements : List TElem
deriving DecidableEq, Repr

/-- LanguageSwitcher.switchLanguage (main.js lines 607-626). -/
def switchLanguage (orig : String → Option String) (st : LangState) (lang : String) :
    LangState :=
  { currentLang := lang
    langEnLabelActive := lang == "en"
    langDeLabelActive := lang == "de"
    elements := st.elements.map (applyLang orig lang) }

/-! ## Thumbnail tool (make_thumbnails.ps1)

The dimension computation of lines 44-50 is embedded over the
rationals.  The PowerShell cast [int] converts a double with
System.Convert semantics, rounding to the nearest integer and ties to
the even one; psInt models that on the rationals. -/

/-- The configured maximum thumbnail dimension (make_thumbnails.ps1 line 6). -/
def maxSizeQ : ℚ := 300

/-- Round to nearest, ties to even: the PowerShell [int] cast applied to
a nonnegative double. -/
def psInt (q : ℚ) : ℤ :=
  if q - ⌊q⌋ = 1 / 2 then (if 2 ∣ ⌊q⌋ then ⌊q⌋ else ⌊q⌋ + 1) else round q

/-- ratioX (make_thumbnails.ps1 line 45). -/
def ratioX (w : ℚ) : ℚ := maxSizeQ / w

/-- ratioY (make_thumbnails.ps1 line 46). -/
def ratioY (h : ℚ) : ℚ := maxSizeQ / h

/-- ratio (make_thumbnails.ps1 line 47): the smaller of the two. -/
def ratioMin (w h : ℚ) : ℚ := min (ratioX w) (ratioY h)

/-- newWidth (make_thumbnails.ps1 line 49). -/
def newWidth (w h : ℚ) : ℤ := psInt (w * ratioMin w h)

/-- newHeight (make_thumbnails.ps1 line 50). -/
def newHeight (w h : ℚ) : ℤ := psInt (h * ratioMin w h)

/-! ## Thumbnail batch loop (make_thumbnails.ps1 lines 21-80)

An input file is abstracted by its name, whether its thumbnail is
already up to date (the Test-Path and LastWriteTime check of line 31),
whether decoding or encoding it raises, and the error message it raises
with.  The loop body appends the log lines the script writes and
increments the counter exactly when the try block completes. -/

structure ImgFile where
  name : String
  upToDate : Bool
  fails : Bool
  errMsg : String
deriving DecidableEq, Repr

/-- One iteration of the foreach loop (lines 26-77) acting on the
accumulated log and counter: skip up-to-date files, catch and log a
failure, count a success. -/
def processFile (acc : List String × Nat) (f : ImgFile) : List String × Nat :=
  if f.upToDate then
    (acc.1 ++ ["Skipping " ++ f.name ++ " (thumbnail up to date)"], acc.2)
  else if f.fails then
    (acc.1 ++ ["Creating thumbnail for: " ++ f.name,
               "  Error processing " ++ f.name ++ " : " ++ f.errMsg], acc.2)
  else
    (acc.1 ++ ["Creating thumbnail for: " ++ f.name], acc.2 + 1)

/-- The whole batch: counter starts at 0 (line 21), every file is
visited in order. -/
def runBatch (files : List ImgFile) : List String × Nat :=
  files.foldl processFile ([], 0)

/-- The number of files for which a thumbnail is successfully produced:
neither skipped as up to date nor failing. -/
def countSucc (files : List ImgFile) : Nat :=
  (files.filter (fun f => !f.upToDate && !f.fails)).length

/-! ## DOM-presence model for the defensive-check claim

For the claim about absent DOM elements, element lookups are modelled as
options and each operation returns an Except that is an error exactly
when the code dereferences a null lookup.  Elements are reduced to the
fields the operations touch. -/

structure ModalElem where
  active : Bool
deriving DecidableEq, Repr

structure BtnElem where
  disabled : Bool
deriving DecidableEq, Repr

/-- Modal.close (main.js lines 16-21) over a possibly absent element:
guarded by if (modalElement), so an absent modal is a no-op. -/
def modalCloseE (m : Option ModalElem) (overflowHidden : Bool) :
    Except String (Option ModalElem × Bool) :=
  match m with
  | none => Except.ok (none, overflowHidden)
  | some _ => Except.ok (some { active := false }, false)

/-- Modal.open (main.js lines 27-32) over a possibly absent element. -/
def modalOpenE (m : Option ModalElem) (overflowHidden : Bool) :
    Except String (Option ModalElem × Bool) :=
  match m with
  | none => Except.ok (none, overflowHidden)
  | some _ => Except.ok (some { active := true }, true)

/-- Navigation.initSidebar (main.js lines 94-110) over possibly absent
lookups, dereferenced in source order: menuToggle.addEventListener (line
95), sidebarOverlay.addEventListener (line 104), then
sidebarNav.querySelectorAll (line 107).  None is guarded. -/
def initSidebarE (menuToggle sidebarNav sidebarOverlay : Option Unit) :
    Except String Unit :=
  match menuToggle with
  | none => Except.error "TypeError: menuToggle is null"
  | some _ =>
    match sidebarOverlay with
    | none => Except.error "TypeError: sidebarOverlay is null"
    | some _ =>
      match sidebarNav with
      | none => Except.error "TypeError: sidebarNav is null"
      | some _ => Except.ok ()

/-- Timeline.updateNavButtons (main.js lines 284-289) over possibly
absent lookups: navPrev.disabled and navNext.disabled are assigned with
no presence check. -/
def updateNavButtonsE (navPrev navNext : Option BtnElem) (currentSection : Nat) :
    Except String (BtnElem × BtnElem) :=
  match navPrev with
  | none => Except.error "TypeError: navPrev is null"
  | some _ =>
    match navNext with
    | none => Except.error "TypeError: navNext is null"
    | some _ =>
      Except.ok ({ disabled := currentSection ≤ 1 },
                 { disabled := totalSections ≤ currentSection })

/-- The registration-time dereferences of Timeline.setupInteractions
(main.js lines 188-264): on mobile the container is dereferenced at line
197; zoomOutBtn (line 229), navPrev (line 231) and navNext (line 237)
are dereferenced unguarded; the svg lookup alone is guarded (line 244). -/
def setupInteractionsE (mobile : Bool)
    (container zoomOutBtn navPrev navNext svg : Option Unit) :
    Except String Unit :=
  let rest : Except String Unit :=
    match zoomOutBtn with
    | none => Except.error "TypeError: zoomOutBtn is null"
    | some _ =>
      match navPrev with
      | none => Except.error "TypeError: navPrev is null"
      | some _ =>
        match navNext with
        | none => Except.error "TypeError: navNext is null"
        | some _ =>
          match svg with
          | none => Except.ok ()
          | some _ => Except.ok ()
  if mobile then
    match container with
    | none => Except.error "TypeError: container is null"
    | some _ => rest
  else rest

/-- A desktop state with both the achievement modal and the sidebar open
and the timeline zoomed on section 2, used to exercise the priority and
independence properties at a concrete input. -/
def exBusyState : AppState :=
  { initialState 1000 with
    achievementActive := true, sidebarActive := true, menuToggleActive := true,
    overlayActive := true, bodyOverflowHidden := true,
    tlZoomed := true, tlZoom2 := true, currentSection := 2 }

/-- The LanguageSwitcher state right after storeOriginalTexts has run on
the startup DOM: default locale en, en label styled active. -/
def initLangState (els : List TElem) : LangState :=
  { currentLang := "en", langEnLabelActive := true, langDeLabelActive := false,
    elements := els }

/-- The log lines one file contributes to the batch output. -/
def stepLog (f : ImgFile) : List String := (processFile ([], 0) f).1

/-- The counter increment one file contributes to the batch. -/
def stepCnt (f : ImgFile) : Nat := (processFile ([], 0) f).2

/-- The timeline invariant: 1 <= currentSection <= totalSections. -/
def sectionInRange (s : AppState) : Prop :=
  1 ≤ s.currentSection ∧ s.currentSection ≤ totalSections

/-- The container-class invariant: without the zoomed class no
zoom-section class is present, and with it the zoom-section classes
mirror currentSection exactly. -/
def classInv (s : AppState) : Prop :=
  (s.tlZoomed = false → s.tlZoom1 = false ∧ s.tlZoom2 = false ∧ s.tlZoom3 = false) ∧
  (s.tlZoomed = true →
     s.tlZoom1 = (s.currentSection == 1) ∧ s.tlZoom2 = (s.currentSection == 2) ∧
     s.tlZoom3 = (s.currentSection == 3))

/-! ## Helper lemmas -/

/-- Field computation: zoomToSection sets currentSection to its argument. -/
theorem zoomToSection_cs (s : AppState) (n : Nat) :
    (zoomToSection s n).currentSection = n := rfl

/-- Field computation: zoomOut never changes currentSection. -/
theorem zoomOut_cs (s : AppState) : (zoomOut s).currentSection = s.currentSection := by
  unfold zoomOut
  split <;> rfl

/-- After initialization currentSection is 1 at every width. -/
theorem initApp_cs (w : Nat) : (initApp w).currentSection = 1 := by
  unfold initApp timelineInit
  split <;> rfl

/-- A prev click at section 1 is dropped with the state unchanged. -/
theorem navPrev_boundary (s : AppState) (h : s.currentSection = 1) :
    step s Ev.navPrev = s := by
  simp [step, navPrevClick, h]

/-- An ArrowLeft press at section 1 is dropped with the state unchanged. -/
theorem arrowLeft_boundary (s : AppState) (h : s.currentSection = 1) :
    step s (Ev.arrow ArrowKey.left) = s := by
  simp only [step, timelineKeydown]
  split
  · rfl
  · simp [h]

/-- A next click at section 3 is dropped with the state unchanged. -/
theorem navNext_boundary (s : AppState) (h : s.currentSection = 3) :
    step s Ev.navNext = s := by
  simp [step, navNextClick, h, totalSections]

/-- An ArrowRight press at section 3 is dropped with the state unchanged. -/
theorem arrowRight_boundary (s : AppState) (h : s.currentSection = 3) :
    step s (Ev.arrow ArrowKey.right) = s := by
  simp only [step, timelineKeydown]
  split
  · rfl
  · simp [h, totalSections]

/-- Every prev, next or arrow event keeps currentSection between 1 and 3. -/
theorem navStep_inRange (s : AppState) (e : Ev) (he : isNavEv e = true)
    (hs : sectionInRange s) : sectionInRange (step s e) := by
  simp only [sectionInRange, totalSections] at hs ⊢
  obtain ⟨h1, h3⟩ := hs
  cases e <;> simp [isNavEv] at he
  case navPrev =>
    simp only [step, navPrevClick]
    split <;> (try simp only [zoomToSection_cs]) <;> omega
  case navNext =>
    simp only [step, navNextClick, totalSections]
    split <;> (try simp only [zoomToSection_cs]) <;> omega
  case arrow k =>
    simp only [step, timelineKeydown, totalSections]
    split
    · omega
    · cases k <;> simp only [] <;>
        (split <;> (try simp only [zoomToSection_cs]) <;> omega)

/-- The section range invariant is preserved along any run of prev, next
and arrow events. -/
theorem navRun_inRange (evs : List Ev) (s : AppState) (hs : sectionInRange s)
    (hnav : evs.all isNavEv = true) : sectionInRange (evs.foldl step s) := by
  induction evs generalizing s with
  | nil => simpa using hs
  | cons e es ih =>
      simp only [List.all_cons, Bool.and_eq_true] at hnav
      exact ih (step s e) (navStep_inRange s e hnav.1 hs) hnav.2

/-- zoomToSection always re-establishes the container-class invariant. -/
theorem classInv_zoomToSection (s : AppState) (n : Nat) : classInv (zoomToSection s n) := by
  unfold classInv zoomToSection updateNavButtons
  simp

/-- zoomOut preserves the container-class invariant. -/
theorem classInv_zoomOut (s : AppState) (hs : classInv s) : classInv (zoomOut s) := by
  unfold zoomOut
  split
  · exact hs
  · unfold classInv updateNavButtons
    simp

/-- The resize handler preserves the container-class invariant. -/
theorem classInv_resize (s : AppState) (w : Nat) (hs : classInv s) :
    classInv (resizeEvent s w) := by
  simp only [resizeEvent]
  obtain ⟨hoff, hon⟩ := hs
  split
  · split
    · rename_i hz
      have h := classInv_zoomToSection { s with width := w } 1
      exact ⟨fun hh => h.1 hh, fun hh => h.2 hh⟩
    · exact ⟨fun hh => hoff hh, fun hh => hon hh⟩
  · split
    · have h := classInv_zoomOut { s with width := w } ⟨fun hh => hoff hh, fun hh => hon hh⟩
      exact ⟨fun hh => h.1 hh, fun hh => h.2 hh⟩
    · exact ⟨fun hh => hoff hh, fun hh => hon hh⟩

/-- The Escape router preserves the container-class invariant. -/
theorem classInv_escape (s : AppState) (hs : classInv s) : classInv (escapeKey s) := by
  unfold escapeKey
  obtain ⟨hoff, hon⟩ := hs
  split
  · exact ⟨fun hh => hoff hh, fun hh => hon hh⟩
  · split
    · exact ⟨fun hh => hoff hh, fun hh => hon hh⟩
    · split
      · exact ⟨fun hh => hoff hh, fun hh => hon hh⟩
      · split
        · exact classInv_zoomOut s ⟨hoff, hon⟩
        · exact ⟨hoff, hon⟩

/-- Every event handler preserves the container-class invariant. -/
theorem classInv_step (s : AppState) (e : Ev) (hs : classInv s) : classInv (step s e) := by
  obtain ⟨hoff, hon⟩ := hs
  cases e with
  | escape => exact classInv_escape s ⟨hoff, hon⟩
  | arrow k =>
      simp only [step, timelineKeydown]
      split
      · exact ⟨hoff, hon⟩
      · cases k <;> simp only [] <;> split
        · exact classInv_zoomToSection s _
        · exact ⟨hoff, hon⟩
        · exact classInv_zoomToSection s _
        · exact ⟨hoff, hon⟩
  | navPrev =>
      simp only [step, navPrevClick]
      split
      · exact classInv_zoomToSection s _
      · exact ⟨hoff, hon⟩
  | navNext =>
      simp only [step, navNextClick]
      split
      · exact classInv_zoomToSection s _
      · exact ⟨hoff, hon⟩
  | sectionClick n =>
      simp only [step, sectionAreaClick]
      split
      · exact ⟨hoff, hon⟩
      · exact classInv_zoomToSection s _
  | zoomOutBtn => exact classInv_zoomOut s ⟨hoff, hon⟩
  | svgClick =>
      simp only [step, svgBackgroundClick]
      split
      · exact ⟨hoff, hon⟩
      · split
        · exact classInv_zoomOut s ⟨hoff, hon⟩
        · exact ⟨hoff, hon⟩
  | resize w => exact classInv_resize s w ⟨hoff, hon⟩
  | menuToggle =>
      simp only [step, menuToggleClick]
      split
      · exact ⟨fun hh => hoff hh, fun hh => hon hh⟩
      · exact ⟨fun hh => hoff hh, fun hh => hon hh⟩
  | overlayClick => exact ⟨fun hh => hoff hh, fun hh => hon hh⟩
  | sidebarLink => exact ⟨fun hh => hoff hh, fun hh => hon hh⟩
  | achievementCardClick => exact ⟨fun hh => hoff hh, fun hh => hon hh⟩
  | partnerCardClick => exact ⟨fun hh => hoff hh, fun hh => hon hh⟩

/-- The initial state satisfies the container-class invariant. -/
theorem classInv_initApp (w : Nat) : classInv (initApp w) := by
  unfold initApp timelineInit
  split
  · have h := classInv_zoomToSection (initialState w) 1
    exact ⟨fun hh => h.1 hh, fun hh => h.2 hh⟩
  · unfold classInv initialState
    simp

/-- The container-class invariant holds in every reachable state. -/
theorem classInv_run (w : Nat) (evs : List Ev) : classInv (run w evs) := by
  unfold run
  induction evs using List.reverseRecOn with
  | nil => exact classInv_initApp w
  | append_singleton es e ih =>
      rw [List.foldl_append]
      exact classInv_step _ e ih

/-- Folding storeUpd over elements whose keys avoid k leaves the entry
at k untouched. -/
theorem storeUpd_not_mem (els : List TElem) (m : String → Option String) (k : String)
    (hk : k ∉ els.map TElem.key) :
    (els.foldl storeUpd m) k = m k := by
  induction els generalizing m with
  | nil => rfl
  | cons e es ih =>
      simp only [List.map_cons, List.mem_cons, not_or] at hk
      simp only [List.foldl_cons]
      rw [ih (storeUpd m e) hk.2]
      simp [storeUpd, hk.1]

/-- With pairwise distinct keys, the stored original text of a member
element is exactly its text. -/
theorem foldl_storeUpd_lookup (els : List TElem) (el : TElem) :
    ∀ (m : String → Option String), el ∈ els → (els.map TElem.key).Nodup →
    (els.foldl storeUpd m) el.key = some el.text := by
  induction els with
  | nil =>
      intro m hmem _
      cases hmem
  | cons e es ih =>
      intro m hmem hnd
      simp only [List.map_cons, List.nodup_cons] at hnd
      simp only [List.foldl_cons]
      rcases List.mem_cons.mp hmem with he | he
      · subst he
        rw [storeUpd_not_mem es (storeUpd m el) el.key hnd.1]
        simp [storeUpd]
      · exact ih (storeUpd m e) he hnd.2

/-- The update loop of switchLanguage never changes an element's key. -/
theorem applyLang_key (orig : String → Option String) (lang : String) (el : TElem) :
    (applyLang orig lang el).key = el.key := by
  unfold applyLang
  split
  · rfl
  · split <;> rfl

/-- Switching to en replaces an element's text by its stored original
whenever that original is present and truthy. -/
theorem applyLang_en (orig : String → Option String) (el : TElem) (t : String)
    (h : orig el.key = some t) (ht : ¬t = "") :
    applyLang orig "en" el = ⟨el.key, t⟩ := by
  obtain ⟨k, tx⟩ := el
  simp only at h
  unfold applyLang
  have hde : (("en" : String) == "de") = false := by decide
  have hen : (("en" : String) == "en") = true := by decide
  simp [hde, hen, h, truthyStr, ht]

/-! ## Claim theorems -/

/-- Claim C1, counterexample: on the mobile page right after initialization
the timeline zoom is the first (and only) open context, yet one Escape
press closes nothing, because Timeline.zoomOut returns early on mobile —
the router does not close the first open context on every press. -/
theorem escape_mobile_zoom_stays_open :
    (initApp 400).tlZoomed = true ∧
    (initApp 400).achievementActive = false ∧
    (initApp 400).partnerActive = false ∧
    (initApp 400).sidebarActive = false ∧
    escapeKey (initApp 400) = initApp 400 := by
  decide

/-- Claim C1, amended: an Escape press handles exactly the first open
context in the fixed order achievement modal, partner modal, sidebar,
timeline zoom, leaving every lower-priority context's open state
unchanged; in particular with both a modal and the sidebar open only the
modal closes.  The one exception is the last context: when the first
open context is the timeline zoom and the viewport is mobile-width,
zoomOut is a no-op and the press changes nothing. -/
theorem escape_router_first_open (s : AppState) :
    (s.achievementActive = true →
       (escapeKey s).achievementActive = false ∧
       (escapeKey s).partnerActive = s.partnerActive ∧
       (escapeKey s).sidebarActive = s.sidebarActive ∧
       (escapeKey s).tlZoomed = s.tlZoomed ∧
       (escapeKey s).currentSection = s.currentSection) ∧
    (s.achievementActive = false → s.partnerActive = true →
       (escapeKey s).partnerActive = false ∧
       (escapeKey s).achievementActive = false ∧
       (escapeKey s).sidebarActive = s.sidebarActive ∧
       (escapeKey s).tlZoomed = s.tlZoomed ∧
       (escapeKey s).currentSection = s.currentSection) ∧
    (s.achievementActive = false → s.partnerActive = false → s.sidebarActive = true →
       (escapeKey s).sidebarActive = false ∧
       (escapeKey s).achievementActive = false ∧
       (escapeKey s).partnerActive = false ∧
       (escapeKey s).tlZoomed = s.tlZoomed ∧
       (escapeKey s).currentSection = s.currentSection) ∧
    (s.achievementActive = false → s.partnerActive = false → s.sidebarActive = false →
       s.tlZoomed = true → 768 < s.width →
       (escapeKey s).tlZoomed = false ∧ (escapeKey s).tlZoom1 = false ∧
       (escapeKey s).tlZoom2 = false ∧ (escapeKey s).tlZoom3 = false) ∧
    (s.achievementActive = false → s.partnerActive = false → s.sidebarActive = false →
       s.tlZoomed = true → s.width ≤ 768 → escapeKey s = s) ∧
    (s.achievementActive = false → s.partnerActive = false → s.sidebarActive = false →
       s.tlZoomed = false → escapeKey s = s) := by
  refine ⟨?_, ?_, ?_, ?_, ?_, ?_⟩
  · intro h
    simp [escapeKey, h, closeAchievementModal]
  · intro h0 h1
    simp [escapeKey, h0, h1, closePartnerModal]
  · intro h0 h1 h2
    simp [escapeKey, h0, h1, h2, isSidebarActive, closeSidebar]
  · intro h0 h1 h2 h3 hw
    have hm : isMobile s = false := by
      simp only [isMobile]
      simp only [decide_eq_false_iff_not]
      omega
    simp [escapeKey, h0, h1, h2, h3, isSidebarActive, isZoomed, zoomOut, hm, updateNavButtons]
  · intro h0 h1 h2 h3 hw
    have hm : isMobile s = true := by simp [isMobile, hw]
    simp [escapeKey, h0, h1, h2, h3, isSidebarActive, isZoomed, zoomOut, hm]
  · intro h0 h1 h2 h3
    simp [escapeKey, h0, h1, h2, h3, isSidebarActive, isZoomed]

/-- Claim C1, witness: with the achievement modal and the sidebar both
open, one Escape press closes only the modal; the sidebar stays open. -/
theorem escape_router_first_open_witness :
    exBusyState.achievementActive = true ∧
    ((escapeKey exBusyState).achievementActive = false ∧
     (escapeKey exBusyState).partnerActive = exBusyState.partnerActive ∧
     (escapeKey exBusyState).sidebarActive = exBusyState.sidebarActive ∧
     (escapeKey exBusyState).tlZoomed = exBusyState.tlZoomed ∧
     (escapeKey exBusyState).currentSection = exBusyState.currentSection) :=
  ⟨by decide, (escape_router_first_open exBusyState).1 (by decide)⟩

/-- Claim C2, counterexample: with the desktop timeline zoomed on section
2, a resize that crosses to mobile width keeps Zoomed(2) and merely adds
mobile-mode — it does not force Zoomed(1) as the claim states. -/
theorem resize_keeps_section_counterexample :
    (run 1000 [Ev.sectionClick 2]).tlZoomed = true ∧
    (run 1000 [Ev.sectionClick 2]).currentSection = 2 ∧
    (run 1000 [Ev.sectionClick 2]).tlMobileMode = false ∧
    (resizeEvent (run 1000 [Ev.sectionClick 2]) 500).currentSection = 2 ∧
    (resizeEvent (run 1000 [Ev.sectionClick 2]) 500).tlZoom2 = true ∧
    (resizeEvent (run 1000 [Ev.sectionClick 2]) 500).tlZoom1 = false ∧
    (resizeEvent (run 1000 [Ev.sectionClick 2]) 500).tlMobileMode = true := by
  decide

/-- Claim C2, amended: a resize to mobile width marks mobile-mode and
forces Zoomed(1) only when the timeline was not already zoomed; an
already-zoomed section is kept unchanged.  A resize back to desktop
width with mobile-mode set forces the un-zoomed Idle state and clears
mobile-mode. -/
theorem resize_mode_transitions (s : AppState) (w : Nat) :
    (w ≤ 768 →
       (resizeEvent s w).tlMobileMode = true ∧
       (s.tlZoomed = false →
          (resizeEvent s w).tlZoomed = true ∧ (resizeEvent s w).currentSection = 1 ∧
          (resizeEvent s w).tlZoom1 = true) ∧
       (s.tlZoomed = true →
          (resizeEvent s w).tlZoomed = true ∧
          (resizeEvent s w).currentSection = s.currentSection ∧
          (resizeEvent s w).tlZoom1 = s.tlZoom1 ∧
          (resizeEvent s w).tlZoom2 = s.tlZoom2 ∧
          (resizeEvent s w).tlZoom3 = s.tlZoom3)) ∧
    (768 < w → s.tlMobileMode = true →
       (resizeEvent s w).tlZoomed = false ∧ (resizeEvent s w).tlZoom1 = false ∧
       (resizeEvent s w).tlZoom2 = false ∧ (resizeEvent s w).tlZoom3 = false ∧
       (resizeEvent s w).tlMobileMode = false) := by
  constructor
  · intro hw
    simp only [resizeEvent]
    have hm : isMobile { s with width := w } = true := by simp [isMobile, hw]
    rw [if_pos hm]
    refine ⟨rfl, ?_, ?_⟩
    · intro hz
      simp [hz, zoomToSection, updateNavButtons]
    · intro hz
      simp [hz]
  · intro hw hmm
    simp only [resizeEvent]
    have hm : isMobile { s with width := w } = false := by
      simp only [isMobile]
      simp only [decide_eq_false_iff_not]
      omega
    rw [if_neg (by simp [hm])]
    rw [if_pos (by simpa using hmm)]
    have hm2 : isMobile { s with width := w } = false := hm
    simp [zoomOut, hm2, updateNavButtons]

/-- Claim C2, witness: resizing the freshly initialized desktop page to
width 500 marks mobile-mode and, the timeline being un-zoomed, forces
Zoomed(1). -/
theorem resize_mode_transitions_witness :
    (500 ≤ 768) ∧
    ((resizeEvent (initApp 1000) 500).tlMobileMode = true ∧
     ((initApp 1000).tlZoomed = false →
        (resizeEvent (initApp 1000) 500).tlZoomed = true ∧
        (resizeEvent (initApp 1000) 500).currentSection = 1 ∧
        (resizeEvent (initApp 1000) 500).tlZoom1 = true) ∧
     ((initApp 1000).tlZoomed = true →
        (resizeEvent (initApp 1000) 500).tlZoomed = true ∧
        (resizeEvent (initApp 1000) 500).currentSection = (initApp 1000).currentSection ∧
        (resizeEvent (initApp 1000) 500).tlZoom1 = (initApp 1000).tlZoom1 ∧
        (resizeEvent (initApp 1000) 500).tlZoom2 = (initApp 1000).tlZoom2 ∧
        (resizeEvent (initApp 1000) 500).tlZoom3 = (initApp 1000).tlZoom3)) :=
  ⟨by decide, (resize_mode_transitions (initApp 1000) 500).1 (by decide)⟩

/-- Claim C3: along any sequence of prev-control, next-control and
arrow-key events, currentSection stays in the range 1..3, and at the
boundaries a prev or ArrowLeft request at section 1 and a next or
ArrowRight request at section 3 leave the entire state unchanged. -/
theorem timeline_section_bounds (w : Nat) (evs : List Ev)
    (hnav : evs.all isNavEv = true) :
    (1 ≤ (run w evs).currentSection ∧ (run w evs).currentSection ≤ 3) ∧
    (∀ s : AppState, s.currentSection = 1 →
       step s Ev.navPrev = s ∧ step s (Ev.arrow ArrowKey.left) = s) ∧
    (∀ s : AppState, s.currentSection = 3 →
       step s Ev.navNext = s ∧ step s (Ev.arrow ArrowKey.right) = s) := by
  refine ⟨?_, fun s h => ⟨navPrev_boundary s h, arrowLeft_boundary s h⟩,
          fun s h => ⟨navNext_boundary s h, arrowRight_boundary s h⟩⟩
  have hinit : sectionInRange (initApp w) := by
    unfold sectionInRange
    rw [initApp_cs]
    exact ⟨le_refl 1, by norm_num [totalSections]⟩
  exact navRun_inRange evs (initApp w) hinit hnav

/-- Claim C3, witness: four next clicks from the initial desktop state
leave currentSection inside 1..3. -/
theorem timeline_section_bounds_witness :
    ([Ev.navNext, Ev.navNext, Ev.navNext, Ev.navNext].all isNavEv = true) ∧
    (1 ≤ (run 1000 [Ev.navNext, Ev.navNext, Ev.navNext, Ev.navNext]).currentSection ∧
     (run 1000 [Ev.navNext, Ev.navNext, Ev.navNext, Ev.navNext]).currentSection ≤ 3) :=
  ⟨by decide,
   (timeline_section_bounds 1000 [Ev.navNext, Ev.navNext, Ev.navNext, Ev.navNext]
     (by decide)).1⟩

/-- Claim C4: capturing the baseline texts, switching to the alternate
locale de and back to the default en restores every translatable
element verbatim, given the page contract that translation keys are
unique across elements and every baseline text is non-empty (a
duplicated key or an empty baseline falls outside the JavaScript
truthiness guard of switchLanguage). -/
theorem language_roundtrip (els : List TElem)
    (hnd : (els.map TElem.key).Nodup)
    (hne : ∀ el ∈ els, ¬el.text = "") :
    (switchLanguage (storeOriginalTexts els)
       (switchLanguage (storeOriginalTexts els) (initLangState els) "de") "en").elements =
      els := by
  simp only [switchLanguage, initLangState, List.map_map]
  have hpt : ∀ el ∈ els,
      (applyLang (storeOriginalTexts els) "en" ∘ applyLang (storeOriginalTexts els) "de") el
        = el := by
    intro el hmem
    simp only [Function.comp_apply]
    have horig : storeOriginalTexts els el.key = some el.text :=
      foldl_storeUpd_lookup els el (fun _ => none) hmem hnd
    have hkey := applyLang_key (storeOriginalTexts els) "de" el
    have horig2 : storeOriginalTexts els (applyLang (storeOriginalTexts els) "de" el).key
        = some el.text := by rw [hkey]; exact horig
    rw [applyLang_en _ _ _ horig2 (hne el hmem)]
    rw [hkey]
  rw [List.map_congr_left hpt]
  simp

/-- Claim C4, witness: a concrete two-element page (one key present in
the German table, one absent) round-trips to its exact baseline. -/
theorem language_roundtrip_witness :
    ((([TElem.mk "nav.about" "About Eva",
        TElem.mk "hero.cta" "Become a Sponsor"].map TElem.key).Nodup) ∧
     (∀ el ∈ [TElem.mk "nav.about" "About Eva",
              TElem.mk "hero.cta" "Become a Sponsor"], ¬el.text = "")) ∧
    (switchLanguage
       (storeOriginalTexts
         [TElem.mk "nav.about" "About Eva", TElem.mk "hero.cta" "Become a Sponsor"])
       (switchLanguage
         (storeOriginalTexts
           [TElem.mk "nav.about" "About Eva", TElem.mk "hero.cta" "Become a Sponsor"])
         (initLangState
           [TElem.mk "nav.about" "About Eva", TElem.mk "hero.cta" "Become a Sponsor"])
         "de")
       "en").elements =
      [TElem.mk "nav.about" "About Eva", TElem.mk "hero.cta" "Become a Sponsor"] :=
  ⟨⟨by decide, by decide⟩,
   language_roundtrip
     [TElem.mk "nav.about" "About Eva", TElem.mk "hero.cta" "Become a Sponsor"]
     (by decide) (by decide)⟩

/-- Claim C5: from any state zoomOut on a desktop-width viewport removes
the zoomed state and every zoom-section marker, while on a mobile-width
viewport it is a no-op, so a zoomed widget with a valid section stays
zoomed on a valid section. -/
theorem zoomOut_desktop_idle_mobile_noop (s : AppState) :
    (768 < s.width →
       (zoomOut s).tlZoomed = false ∧ (zoomOut s).tlZoom1 = false ∧
       (zoomOut s).tlZoom2 = false ∧ (zoomOut s).tlZoom3 = false) ∧
    (s.width ≤ 768 → zoomOut s = s) ∧
    (s.width ≤ 768 → s.tlZoomed = true →
       (s.currentSection = 1 ∨ s.currentSection = 2 ∨ s.currentSection = 3) →
       (zoomOut s).tlZoomed = true ∧
       ((zoomOut s).currentSection = 1 ∨ (zoomOut s).currentSection = 2 ∨
        (zoomOut s).currentSection = 3)) := by
  have hnoop : s.width ≤ 768 → zoomOut s = s := by
    intro hw
    simp [zoomOut, isMobile, hw]
  refine ⟨?_, hnoop, ?_⟩
  · intro hw
    have hm : isMobile s = false := by
      simp only [isMobile, decide_eq_false_iff_not]
      omega
    simp [zoomOut, hm, updateNavButtons]
  · intro hw hz hcs
    rw [hnoop hw]
    exact ⟨hz, hcs⟩

/-- Claim C5, witness: on the initialized mobile page zoomOut changes
nothing and the widget stays zoomed on a section in 1..3. -/
theorem zoomOut_desktop_idle_mobile_noop_witness :
    ((400 : Nat) ≤ 768 ∧ (initApp 400).tlZoomed = true ∧
     ((initApp 400).currentSection = 1 ∨ (initApp 400).currentSection = 2 ∨
      (initApp 400).currentSection = 3)) ∧
    (zoomOut (initApp 400) = initApp 400) ∧
    ((zoomOut (initApp 400)).tlZoomed = true ∧
     ((zoomOut (initApp 400)).currentSection = 1 ∨
      (zoomOut (initApp 400)).currentSection = 2 ∨
      (zoomOut (initApp 400)).currentSection = 3)) :=
  ⟨by decide,
   (zoomOut_desktop_idle_mobile_noop (initApp 400)).2.1 (by decide),
   (zoomOut_desktop_idle_mobile_noop (initApp 400)).2.2 (by decide) (by decide) (by decide)⟩

/-- Claim C6, counterexample: Timeline.updateNavButtons with an absent
navPrev lookup raises a TypeError instead of being a no-op — not every
dereference of a looked-up element is guarded by a presence check. -/
theorem updateNavButtons_absent_raises :
    updateNavButtonsE none (some { disabled := false }) 2 =
      Except.error "TypeError: navPrev is null" := rfl

/-- Claim C6, amended: the operations with explicit presence checks
(Modal.close and Modal.open on an absent modal, setupInteractions with
an absent svg) are no-ops on absent elements, but Navigation.initSidebar,
the control lookups of Timeline.setupInteractions and
Timeline.updateNavButtons dereference their lookups unguarded and raise
when the element is absent. -/
theorem dom_presence_mixed_guards (b : Bool) :
    (modalCloseE none b = Except.ok (none, b)) ∧
    (modalOpenE none b = Except.ok (none, b)) ∧
    (setupInteractionsE false (some ()) (some ()) (some ()) (some ()) none =
       Except.ok ()) ∧
    (∀ cs : Nat, updateNavButtonsE none none cs =
       Except.error "TypeError: navPrev is null") ∧
    (∀ cs : Nat, ∀ p : BtnElem, updateNavButtonsE (some p) none cs =
       Except.error "TypeError: navNext is null") ∧
    (initSidebarE none (some ()) (some ()) =
       Except.error "TypeError: menuToggle is null") ∧
    (setupInteractionsE false (some ()) none (some ()) (some ()) (some ()) =
       Except.error "TypeError: zoomOutBtn is null") ∧
    (setupInteractionsE true none (some ()) (some ()) (some ()) (some ()) =
       Except.error "TypeError: container is null") :=
  ⟨rfl, rfl, rfl, fun _ => rfl, fun _ _ => rfl, rfl, rfl, rfl⟩

/-- Bound for the PowerShell int cast: a rational at most 300 rounds to
an integer at most 300 under round-half-to-even. -/
theorem psInt_le_300 (q : ℚ) (h : q ≤ 300) : psInt q ≤ 300 := by
  unfold psInt
  split
  · rename_i htie
    have hfl : (⌊q⌋ : ℚ) ≤ q := Int.floor_le q
    have heq : (⌊q⌋ : ℚ) = q - 1 / 2 := by linarith [htie]
    have h299 : ⌊q⌋ ≤ 299 := by
      by_contra hc
      push_neg at hc
      have : (300 : ℚ) ≤ (⌊q⌋ : ℚ) := by exact_mod_cast hc
      linarith
    split <;> omega
  · have hr : round q ≤ round (300 : ℚ) := by
      rw [round_eq, round_eq]
      exact Int.floor_le_floor (by linarith)
    have h300 : round (300 : ℚ) = 300 := by norm_num [round_eq]
    omega

/-- Claim C7: the thumbnail tool scales uniformly by the minimum of
MaxSize over width and MaxSize over height, neither output dimension
exceeds 300, and a 1200 by 800 source yields exactly 300 by 200. -/
theorem thumbnail_dimension_bound (w h : ℚ) (hw : 0 < w) (hh : 0 < h) :
    ratioMin w h = min (maxSizeQ / w) (maxSizeQ / h) ∧
    newWidth w h ≤ 300 ∧ newHeight w h ≤ 300 ∧
    newWidth 1200 800 = 300 ∧ newHeight 1200 800 = 200 := by
  refine ⟨rfl, ?_, ?_, ?_, ?_⟩
  · apply psInt_le_300
    have h1 : ratioMin w h ≤ maxSizeQ / w := min_le_left _ _
    have h2 : w * ratioMin w h ≤ w * (maxSizeQ / w) :=
      mul_le_mul_of_nonneg_left h1 hw.le
    have h3 : w * (maxSizeQ / w) = 300 := by
      rw [mul_comm, div_mul_cancel₀]
      · rfl
      · exact ne_of_gt hw
    linarith
  · apply psInt_le_300
    have h1 : ratioMin w h ≤ maxSizeQ / h := min_le_right _ _
    have h2 : h * ratioMin w h ≤ h * (maxSizeQ / h) :=
      mul_le_mul_of_nonneg_left h1 hh.le
    have h3 : h * (maxSizeQ / h) = 300 := by
      rw [mul_comm, div_mul_cancel₀]
      · rfl
      · exact ne_of_gt hh
    linarith
  · unfold newWidth ratioMin ratioX ratioY maxSizeQ psInt
    rw [min_def]
    norm_num [round_eq]
  · unfold newHeight ratioMin ratioX ratioY maxSizeQ psInt
    rw [min_def]
    norm_num [round_eq]

/-- Claim C7, witness: the bound and the 1200 by 800 scenario evaluated
at the scenario's own dimensions. -/
theorem thumbnail_dimension_bound_witness :
    ((0 : ℚ) < 1200 ∧ (0 : ℚ) < 800) ∧
    (ratioMin 1200 800 = min (maxSizeQ / 1200) (maxSizeQ / 800) ∧
     newWidth 1200 800 ≤ 300 ∧ newHeight 1200 800 ≤ 300 ∧
     newWidth 1200 800 = 300 ∧ newHeight 1200 800 = 200) :=
  ⟨⟨by norm_num, by norm_num⟩,
   thumbnail_dimension_bound 1200 800 (by norm_num) (by norm_num)⟩

/-- The loop body splits into the log lines and counter increment the
file contributes. -/
theorem processFile_eq (acc : List String × Nat) (f : ImgFile) :
    processFile acc f = (acc.1 ++ stepLog f, acc.2 + stepCnt f) := by
  by_cases hu : f.upToDate <;> by_cases hf : f.fails <;>
    simp [processFile, stepLog, stepCnt, hu, hf]

/-- Folding the loop body from any accumulator shifts the empty-start
result by that accumulator. -/
theorem foldl_processFile_shift (files : List ImgFile) (l : List String) (n : Nat) :
    files.foldl processFile (l, n) =
      (l ++ (files.foldl processFile ([], 0)).1,
       n + (files.foldl processFile ([], 0)).2) := by
  induction files generalizing l n with
  | nil => simp
  | cons f fs ih =>
    simp only [List.foldl_cons, processFile_eq]
    simp only [List.nil_append, Nat.zero_add]
    rw [ih (l ++ stepLog f) (n + stepCnt f), ih (stepLog f) (stepCnt f)]
    simp [List.append_assoc, Nat.add_assoc]

/-- The final counter equals the number of files neither skipped nor
failing. -/
theorem runBatch_count (files : List ImgFile) : (runBatch files).2 = countSucc files := by
  induction files with
  | nil => simp [runBatch, countSucc]
  | cons f fs ih =>
    unfold runBatch at *
    simp only [List.foldl_cons, processFile_eq, List.nil_append, Nat.zero_add]
    rw [foldl_processFile_shift]
    unfold countSucc at *
    by_cases hu : f.upToDate <;> by_cases hf : f.fails <;>
      simp [hu, hf, stepCnt, processFile] <;> omega

/-- The success count is additive over concatenated file lists. -/
theorem countSucc_append (xs ys : List ImgFile) :
    countSucc (xs ++ ys) = countSucc xs + countSucc ys := by
  simp [countSucc, List.filter_append]

/-- The batch log around one file splits into the logs before it, its
own lines and the logs after it: the loop always reaches the rest. -/
theorem runBatch_log_split (pre post : List ImgFile) (f : ImgFile) :
    (runBatch (pre ++ f :: post)).1 =
      (runBatch pre).1 ++ stepLog f ++ (runBatch post).1 := by
  unfold runBatch
  rw [List.foldl_append, List.foldl_cons]
  rw [processFile_eq (List.foldl processFile ([], 0) pre) f]
  rw [foldl_processFile_shift]

/-- Claim C8: a failing file is logged with its name, the files after it
are still processed and counted, and the final count equals the number
of successfully produced thumbnails, excluding failed and skipped
files. -/
theorem batch_error_isolation (pre post : List ImgFile) (f : ImgFile)
    (hu : f.upToDate = false) (hf : f.fails = true) :
    ("  Error processing " ++ f.name ++ " : " ++ f.errMsg) ∈
      (runBatch (pre ++ f :: post)).1 ∧
    (runBatch (pre ++ f :: post)).2 = countSucc pre + countSucc post ∧
    (∀ files : List ImgFile, (runBatch files).2 = countSucc files) := by
  refine ⟨?_, ?_, fun files => runBatch_count files⟩
  · rw [runBatch_log_split]
    simp [stepLog, processFile, hu, hf]
  · rw [runBatch_count, countSucc_append]
    simp [countSucc, hu, hf]

/-- Claim C8, witness: a four-file batch with one failure and one
up-to-date skip logs the failure and counts the two successes. -/
theorem batch_error_isolation_witness :
    ((ImgFile.mk "broken.jpg" false true "decode failed").upToDate = false ∧
     (ImgFile.mk "broken.jpg" false true "decode failed").fails = true) ∧
    (("  Error processing " ++ "broken.jpg" ++ " : " ++ "decode failed") ∈
       (runBatch [ImgFile.mk "a.jpg" false false "",
                  ImgFile.mk "broken.jpg" false true "decode failed",
                  ImgFile.mk "b.jpg" true false "",
                  ImgFile.mk "c.jpg" false false ""]).1 ∧
     (runBatch [ImgFile.mk "a.jpg" false false "",
                ImgFile.mk "broken.jpg" false true "decode failed",
                ImgFile.mk "b.jpg" true false "",
                ImgFile.mk "c.jpg" false false ""]).2 =
       countSucc [ImgFile.mk "a.jpg" false false ""] +
       countSucc [ImgFile.mk "b.jpg" true false "", ImgFile.mk "c.jpg" false false ""] ∧
     (∀ files : List ImgFile, (runBatch files).2 = countSucc files)) :=
  ⟨⟨rfl, rfl⟩,
   batch_error_isolation [ImgFile.mk "a.jpg" false false ""]
     [ImgFile.mk "b.jpg" true false "", ImgFile.mk "c.jpg" false false ""]
     (ImgFile.mk "broken.jpg" false true "decode failed") rfl rfl⟩

/-- Claim C9: in every reachable state the container carries at most one
zoom-section class; with the zoomed class present the zoom-section
classes mirror currentSection exactly, and without it none is present. -/
theorem zoom_class_coherence (w : Nat) (evs : List Ev) :
    (¬((run w evs).tlZoom1 = true ∧ (run w evs).tlZoom2 = true)) ∧
    (¬((run w evs).tlZoom1 = true ∧ (run w evs).tlZoom3 = true)) ∧
    (¬((run w evs).tlZoom2 = true ∧ (run w evs).tlZoom3 = true)) ∧
    ((run w evs).tlZoomed = true →
       (run w evs).tlZoom1 = ((run w evs).currentSection == 1) ∧
       (run w evs).tlZoom2 = ((run w evs).currentSection == 2) ∧
       (run w evs).tlZoom3 = ((run w evs).currentSection == 3)) ∧
    ((run w evs).tlZoomed = false →
       (run w evs).tlZoom1 = false ∧ (run w evs).tlZoom2 = false ∧
       (run w evs).tlZoom3 = false) := by
  obtain ⟨hoff, hon⟩ := classInv_run w evs
  refine ⟨?_, ?_, ?_, hon, hoff⟩
  all_goals
    rintro ⟨ha, hb⟩
    cases hz : (run w evs).tlZoomed
    · have := hoff hz
      simp_all
    · have := hon hz
      simp_all

/-- Claim C9, witness: after zooming to section 2 on desktop the zoomed
container carries exactly the zoom-section-2 class. -/
theorem zoom_class_coherence_witness :
    (run 1000 [Ev.sectionClick 2]).tlZoomed = true ∧
    ((run 1000 [Ev.sectionClick 2]).tlZoom1 =
       ((run 1000 [Ev.sectionClick 2]).currentSection == 1) ∧
     (run 1000 [Ev.sectionClick 2]).tlZoom2 =
       ((run 1000 [Ev.sectionClick 2]).currentSection == 2) ∧
     (run 1000 [Ev.sectionClick 2]).tlZoom3 =
       ((run 1000 [Ev.sectionClick 2]).currentSection == 3)) :=
  ⟨by decide, (zoom_class_coherence 1000 [Ev.sectionClick 2]).2.2.2.1 (by decide)⟩

/-- Claim C10: the timeline keydown handler gates only on the
mobile/zoomed state, so on a zoomed desktop timeline ArrowRight and
ArrowLeft move the section while leaving the modal and sidebar flags
untouched, whatever their values. -/
theorem arrow_keys_ignore_other_contexts (s : AppState)
    (_hw : 768 < s.width) (hz : s.tlZoomed = true) :
    (s.currentSection < 3 →
       (timelineKeydown s ArrowKey.right).currentSection = s.currentSection + 1 ∧
       (timelineKeydown s ArrowKey.right).tlZoomed = true ∧
       (timelineKeydown s ArrowKey.right).achievementActive = s.achievementActive ∧
       (timelineKeydown s ArrowKey.right).partnerActive = s.partnerActive ∧
       (timelineKeydown s ArrowKey.right).sidebarActive = s.sidebarActive) ∧
    (1 < s.currentSection →
       (timelineKeydown s ArrowKey.left).currentSection = s.currentSection - 1 ∧
       (timelineKeydown s ArrowKey.left).tlZoomed = true ∧
       (timelineKeydown s ArrowKey.left).achievementActive = s.achievementActive ∧
       (timelineKeydown s ArrowKey.left).partnerActive = s.partnerActive ∧
       (timelineKeydown s ArrowKey.left).sidebarActive = s.sidebarActive) := by
  constructor
  · intro hlt
    simp only [timelineKeydown, hz]
    simp only [Bool.not_true, Bool.and_false, Bool.false_eq_true, if_false]
    simp [totalSections, hlt, zoomToSection, updateNavButtons]
  · intro hgt
    simp only [timelineKeydown, hz]
    simp only [Bool.not_true, Bool.and_false, Bool.false_eq_true, if_false]
    simp [hgt, zoomToSection, updateNavButtons]

/-- Claim C10, witness: with the achievement modal and sidebar both open
on a zoomed desktop timeline, ArrowRight still advances the section and
the open contexts are untouched. -/
theorem arrow_keys_ignore_other_contexts_witness :
    (768 < exBusyState.width ∧ exBusyState.tlZoomed = true ∧
     exBusyState.currentSection < 3 ∧ exBusyState.achievementActive = true ∧
     exBusyState.sidebarActive = true) ∧
    ((timelineKeydown exBusyState ArrowKey.right).currentSection =
       exBusyState.currentSection + 1 ∧
     (timelineKeydown exBusyState ArrowKey.right).tlZoomed = true ∧
     (timelineKeydown exBusyState ArrowKey.right).achievementActive =
       exBusyState.achievementActive ∧
     (timelineKeydown exBusyState ArrowKey.right).partnerActive =
       exBusyState.partnerActive ∧
     (timelineKeydown exBusyState ArrowKey.right).sidebarActive =
       exBusyState.sidebarActive) :=
  ⟨by decide,
   (arrow_keys_ignore_other_contexts exBusyState (by decide) (by decide)).1 (by decide)⟩
